import Mathlib

/-!
# Verification of the pyspeex-noise adapter

A shallow embedding of `src/python.cpp`, the single source file of the
repository: a pybind11 adapter exposing one `AudioProcessor` class that wraps
the SpeexDSP preprocessing routine (noise suppression and automatic gain
control over 16-bit mono PCM).

Modelling conventions:
* C++ `int` values (`chunk_size_samples`, `noise_suppression`, sizes) are
  modelled as `Int`; all arithmetic in the adapter stays far from the 32-bit
  range for defined behavior, so no wrap-around is modelled.
* The C++ `float auto_gain` is modelled as `ℚ`: the adapter only compares it
  with `0` and forwards it verbatim, so exact ordered arithmetic suffices and
  no floating-point operation occurs.
* A Python `bytes` object is a one-dimensional sequence of bytes; its
  pybind11 buffer view is modelled by `BufferInfo` (an `ndim` field plus the
  byte data), since `ProcessChunk` inspects `buffer_info.ndim`.
* The external SpeexDSP library is not part of the repository; the spec
  describes it as a black box with four operations (state-init, state-destroy,
  ctl, run).  Those operations are modelled from the spec, and every external
  call the adapter makes is recorded in a trace (`List ExtCall`) so that
  claims about which calls are made, and in which circumstances, are statable.
* The two C++ exception types thrown by the adapter are modelled by the
  inductive `CppErr`, one constructor per throw site, with `CppErr.what`
  giving the exact message string of the source.
-/

namespace SpeexNoise

/-- The `speex_preprocess_ctl` requests issued by the adapter, with the value
the adapter passes (the C++ passes a pointer to the value). -/
inductive CtlRequest where
  | SET_DENOISE (v : Int)
  | SET_NOISE_SUPPRESS (v : Int)
  | SET_AGC (v : Int)
  | SET_AGC_LEVEL (v : ℚ)
deriving DecidableEq

/-- The observable content of a `SpeexPreprocessState` handle: the creation
parameters plus the configuration written through `ctl` calls, and an abstract
counter standing for the adaptive statistics (noise spectrum estimate, gain
history) that `run` mutates.  `noise_suppress` and `agc_level` are `Option`s:
`some` exactly when the corresponding parameter was forwarded. -/
structure SpeexPreprocessState where
  frame_size : Int
  sampling_rate : Int
  denoise : Bool
  noise_suppress : Option Int
  agc : Bool
  agc_level : Option ℚ
  adapt : Nat
deriving DecidableEq

/-- One call from the adapter into the external SpeexDSP library. -/
inductive ExtCall where
  | state_init (frame_size sampling_rate : Int)
  | ctl (req : CtlRequest)
  | run (buf : List Int)
deriving DecidableEq

/-- Modelled from the spec: `state-init(chunk_len, sample_rate) -> handle|null`.
The external allocation may fail (return null) only for environmental reasons
such as resource exhaustion; the flag `initOk` says whether the environment
lets the allocation succeed.  A fresh state has both features disabled and no
forwarded parameters. -/
def initial_state (frame_size sampling_rate : Int) : SpeexPreprocessState :=
  { frame_size := frame_size, sampling_rate := sampling_rate,
    denoise := false, noise_suppress := none,
    agc := false, agc_level := none, adapt := 0 }

/-- Modelled from the spec (continued): the allocation itself. -/
def speex_preprocess_state_init (initOk : Bool) (frame_size sampling_rate : Int) :
    Option SpeexPreprocessState :=
  if initOk then some (initial_state frame_size sampling_rate) else none

/-- Modelled from the spec: `ctl(handle, parameter_id, value)` for the four
parameter ids the adapter uses.  Each request writes the corresponding
configuration field of the state. -/
def speex_preprocess_ctl (st : SpeexPreprocessState) : CtlRequest → SpeexPreprocessState
  | CtlRequest.SET_DENOISE v =>
      { st with denoise := if v = 0 then false else true }
  | CtlRequest.SET_NOISE_SUPPRESS v => { st with noise_suppress := some v }
  | CtlRequest.SET_AGC v =>
      { st with agc := if v = 0 then false else true }
  | CtlRequest.SET_AGC_LEVEL v => { st with agc_level := some v }

/-- Interpret a value in `[0, 65536)` as a 16-bit two's-complement integer. -/
def toSigned16 (u : Nat) : Int :=
  if u < 32768 then (u : Nat) else (u : Int) - 65536

/-- The two little-endian bytes of a 16-bit sample (`memcpy` out of an
`int16_t` buffer on a little-endian host). -/
def fromSigned16 (s : Int) : List Nat :=
  [(s % 65536).toNat % 256, (s % 65536).toNat / 256]

/-- `memcpy` of a byte buffer into an `int16_t` buffer on a little-endian
host: consecutive byte pairs become samples. -/
def bytesToSamples : List Nat → List Int
  | lo :: hi :: rest => toSigned16 (lo + 256 * hi) :: bytesToSamples rest
  | _ => []

/-- `memcpy` of an `int16_t` buffer back out to bytes. -/
def samplesToBytes : List Int → List Nat
  | [] => []
  | s :: rest => fromSigned16 s ++ samplesToBytes rest

/-- Modelled from the spec: `run(handle, in-place sample buffer) -> activity
flag (ignored)`.  Missing from `src/`: the body of `speex_preprocess_run` of
the external SpeexDSP library.  Per the spec the call is synchronous and
deterministic, mutates the buffer in place (hence preserves its length), and
performs no processing when both denoising and AGC are disabled, so the buffer
comes back bit-identical; it also mutates the state's internal adaptive
statistics when processing is enabled.  The enabled-feature behavior is
outside the spec and is represented by a fixed deterministic length-preserving
stand-in transform. -/
def speex_preprocess_run (st : SpeexPreprocessState) (buf : List Int) :
    SpeexPreprocessState × List Int :=
  if st.denoise = false ∧ st.agc = false then (st, buf)
  else ({ st with adapt := st.adapt + 1 },
        buf.map (fun s => toSigned16 (((s + (st.adapt : Int) + 1) % 65536).toNat)))

/-- The exceptions thrown by `src/python.cpp`, one constructor per throw
site.  The first is a C++ `std::invalid_argument`; the other three are
`std::runtime_error`s distinguished by their message. -/
inductive CppErr where
  | invalid_argument_chunk_size
  | init_failure
  | not_one_dim
  | size_mismatch (got expected : Int)
deriving DecidableEq

/-- The exact message string each throw site of `src/python.cpp` produces. -/
def CppErr.what : CppErr → String
  | CppErr.invalid_argument_chunk_size => "chunk_size_samples must be positive."
  | CppErr.init_failure => "Failed to initialize Speex preprocessor state."
  | CppErr.not_one_dim => "Input audio must be a 1D bytes array."
  | CppErr.size_mismatch got expected =>
      "Input audio size (" ++ toString got ++
      " bytes) does not match configured chunk size (" ++ toString expected ++ " bytes)."

/-- The spec's `ShapeMismatch` condition: the size-mismatch throw of
`ProcessChunk`. -/
def isShapeMismatch : CppErr → Bool
  | CppErr.size_mismatch _ _ => true
  | _ => false

/-- The spec's `InvalidArgument` condition: the `std::invalid_argument` throw
of the constructor. -/
def isInvalidArgument : CppErr → Bool
  | CppErr.invalid_argument_chunk_size => true
  | _ => false

/-- `ProcessedAudioChunk`: the result value, whose only field is the processed
byte sequence. -/
structure ProcessedAudioChunk where
  audio : List Nat
deriving DecidableEq

/-- The `AudioProcessor` class: the owned external state handle and the two
configured sizes. -/
structure AudioProcessor where
  state : SpeexPreprocessState
  m_chunk_size_samples : Int
  m_chunk_size_bytes : Int
deriving DecidableEq

/-- A pybind11 buffer view of the input object: its dimensionality and its
byte content (for a Python `bytes` object, `ndim` is `1`). -/
structure BufferInfo where
  ndim : Nat
  data : List Nat
deriving DecidableEq

/-- The configuration ctl sequence of the constructor body, folded into the
state: always `SET_DENOISE` (with `0` or `1`), then `SET_NOISE_SUPPRESS` only
when `noise_suppression != 0`, then always `SET_AGC` (with `1` or `0`), then
`SET_AGC_LEVEL` only when `auto_gain > 0`. -/
def configuredState (st0 : SpeexPreprocessState) (auto_gain : ℚ)
    (noise_suppression : Int) : SpeexPreprocessState :=
  let st1 := speex_preprocess_ctl st0
    (CtlRequest.SET_DENOISE (if noise_suppression = 0 then 0 else 1))
  let st2 := if noise_suppression = 0 then st1
    else speex_preprocess_ctl st1 (CtlRequest.SET_NOISE_SUPPRESS noise_suppression)
  let st3 := speex_preprocess_ctl st2
    (CtlRequest.SET_AGC (if 0 < auto_gain then 1 else 0))
  if 0 < auto_gain then
    speex_preprocess_ctl st3 (CtlRequest.SET_AGC_LEVEL auto_gain)
  else st3

/-- The external calls the constructor body makes after a successful
`state_init`, in order. -/
def configTrace (auto_gain : ℚ) (noise_suppression : Int) : List ExtCall :=
  ExtCall.ctl (CtlRequest.SET_DENOISE (if noise_suppression = 0 then 0 else 1))
    :: ((if noise_suppression = 0 then []
         else [ExtCall.ctl (CtlRequest.SET_NOISE_SUPPRESS noise_suppression)])
    ++ ExtCall.ctl (CtlRequest.SET_AGC (if 0 < auto_gain then 1 else 0))
    :: (if 0 < auto_gain then [ExtCall.ctl (CtlRequest.SET_AGC_LEVEL auto_gain)]
        else []))

/-- `AudioProcessor::AudioProcessor`.  Returns the constructed object or the
thrown exception, paired with the trace of external calls made.  The member
initializer list sets `m_chunk_size_samples = chunk_size_samples` and
`m_chunk_size_bytes = chunk_size_samples * 2`; then the body validates
positivity, calls `speex_preprocess_state_init(chunk, 16000)`, and issues the
configuration ctl calls. -/
def AudioProcessor.construct (initOk : Bool) (chunk_size_samples : Int)
    (auto_gain : ℚ) (noise_suppression : Int) :
    Except CppErr AudioProcessor × List ExtCall :=
  if chunk_size_samples ≤ 0 then
    (Except.error CppErr.invalid_argument_chunk_size, [])
  else
    match speex_preprocess_state_init initOk chunk_size_samples 16000 with
    | none =>
        (Except.error CppErr.init_failure,
         [ExtCall.state_init chunk_size_samples 16000])
    | some st0 =>
        (Except.ok
          { state := configuredState st0 auto_gain noise_suppression,
            m_chunk_size_samples := chunk_size_samples,
            m_chunk_size_bytes := chunk_size_samples * 2 },
         ExtCall.state_init chunk_size_samples 16000
           :: configTrace auto_gain noise_suppression)

/-- `AudioProcessor::ProcessChunk`.  Requests the buffer view, rejects
non-1-D views, rejects size mismatches, copies the bytes into a fresh
`int16_t` buffer, runs the external routine on the copy, and returns the
result bytes wrapped in a `ProcessedAudioChunk`.  The returned pair carries
the updated object (the external state is mutated through the owned handle)
and the trace of external calls made. -/
def AudioProcessor.ProcessChunk (self : AudioProcessor)
    (audio_input : BufferInfo) :
    Except CppErr (AudioProcessor × ProcessedAudioChunk) × List ExtCall :=
  if audio_input.ndim ≠ 1 then
    (Except.error CppErr.not_one_dim, [])
  else if (audio_input.data.length : Int) ≠ self.m_chunk_size_bytes then
    (Except.error
      (CppErr.size_mismatch audio_input.data.length self.m_chunk_size_bytes), [])
  else
    let temp_audio_buffer := bytesToSamples audio_input.data
    let stOut := speex_preprocess_run self.state temp_audio_buffer
    (Except.ok ({ self with state := stOut.1 },
                { audio := samplesToBytes stOut.2 }),
     [ExtCall.run temp_audio_buffer])

/-- `ProcessChunk` applied to a Python `bytes` object: pybind11 presents a
`bytes` object as a one-dimensional buffer view over its bytes. -/
def AudioProcessor.ProcessChunkBytes (self : AudioProcessor) (bs : List Nat) :
    Except CppErr (AudioProcessor × ProcessedAudioChunk) × List ExtCall :=
  self.ProcessChunk { ndim := 1, data := bs }

/-- Feeding a sequence of buffer views to one instance, collecting each
call's result.  A thrown exception leaves the object unchanged (`ProcessChunk`
throws before touching the state), so subsequent calls continue from the same
object. -/
def processAll (p : AudioProcessor) : List BufferInfo → List (Except CppErr ProcessedAudioChunk)
  | [] => []
  | input :: rest =>
      match p.ProcessChunk input with
      | (Except.ok (p2, out), _) => Except.ok out :: processAll p2 rest
      | (Except.error e, _) => Except.error e :: processAll p rest

end SpeexNoise

namespace SpeexNoise

/-! ## Basic facts about construction -/

/-- A successful construction pins down every component of the result: the
chunk length was positive, the object's fields are the configured state and
the two sizes, and the external-call trace is the init call followed by the
configuration ctl calls. -/
theorem construct_ok_facts (io : Bool) (c : Int) (g : ℚ) (n : Int)
    (p : AudioProcessor) (tr : List ExtCall)
    (hp : AudioProcessor.construct io c g n = (Except.ok p, tr)) :
    0 < c ∧
    p = { state := configuredState (initial_state c 16000) g n,
          m_chunk_size_samples := c, m_chunk_size_bytes := c * 2 } ∧
    tr = ExtCall.state_init c 16000 :: configTrace g n := by
  unfold AudioProcessor.construct at hp
  by_cases hc : c ≤ 0
  · rw [if_pos hc] at hp
    exact absurd hp (by simp)
  · rw [if_neg hc] at hp
    cases io with
    | false => simp [speex_preprocess_state_init] at hp
    | true =>
      simp only [speex_preprocess_state_init, if_true] at hp
      simp only [Prod.mk.injEq, Except.ok.injEq] at hp
      exact ⟨by omega, hp.1.symm, hp.2.symm⟩

end SpeexNoise

namespace SpeexNoise

/-! ## Claims about construction -/

/-- C3: Construction fails with an `InvalidArgument` condition if and only if
`chunk_size_samples` is not positive (zero or negative); in that case the
external-call trace is empty, so no external preprocessor state is
allocated. -/
theorem construct_invalid_argument_iff (io : Bool) (c : Int) (g : ℚ) (n : Int) :
    ((AudioProcessor.construct io c g n).1
        = Except.error CppErr.invalid_argument_chunk_size ↔ c ≤ 0)
    ∧ (c ≤ 0 → (AudioProcessor.construct io c g n).2 = []) := by
  unfold AudioProcessor.construct
  by_cases hc : c ≤ 0
  · simp [hc]
  · rw [if_neg hc]
    cases io with
    | false => simp [speex_preprocess_state_init, hc]
    | true => simp [speex_preprocess_state_init, hc]

/-- Witness for C3: at `chunk_size_samples = 0` construction reports
`InvalidArgument` and makes no external call; at `-3` likewise. -/
theorem construct_invalid_argument_iff_witness :
    ((AudioProcessor.construct true 0 (1/2) 5).1
        = Except.error CppErr.invalid_argument_chunk_size
      ∧ (AudioProcessor.construct true 0 (1/2) 5).2 = [])
    ∧ ((AudioProcessor.construct false (-3) 0 0).1
        = Except.error CppErr.invalid_argument_chunk_size
      ∧ (AudioProcessor.construct false (-3) 0 0).2 = []) :=
  ⟨⟨(construct_invalid_argument_iff true 0 (1/2) 5).1.mpr (by decide),
    (construct_invalid_argument_iff true 0 (1/2) 5).2 (by decide)⟩,
   ⟨(construct_invalid_argument_iff false (-3) 0 0).1.mpr (by decide),
    (construct_invalid_argument_iff false (-3) 0 0).2 (by decide)⟩⟩

/-- C4: For every positive `chunk_size_samples` (and a successful external
allocation), construction succeeds and the configured byte-chunk size equals
`chunk_size_samples * 2`. -/
theorem construct_pos_succeeds (c : Int) (g : ℚ) (n : Int) (hc : 0 < c) :
    ∃ p tr, AudioProcessor.construct true c g n = (Except.ok p, tr) ∧
      p.m_chunk_size_bytes = c * 2 := by
  have h : AudioProcessor.construct true c g n =
      (Except.ok ({ state := configuredState (initial_state c 16000) g n,
                    m_chunk_size_samples := c,
                    m_chunk_size_bytes := c * 2 } : AudioProcessor),
       ExtCall.state_init c 16000 :: configTrace g n) := by
    unfold AudioProcessor.construct
    rw [if_neg (by omega)]
    rfl
  exact ⟨_, _, h, rfl⟩

/-- Witness for C4: construction with 160 samples succeeds with a 320-byte
chunk size. -/
theorem construct_pos_succeeds_witness :
    (0 : Int) < 160 ∧
    ∃ p tr, AudioProcessor.construct true 160 0 0 = (Except.ok p, tr) ∧
      p.m_chunk_size_bytes = 160 * 2 :=
  ⟨by decide, construct_pos_succeeds 160 0 0 (by decide)⟩

/-- C5: Invariant: the chunk length in samples of a constructed instance is
the positive value fixed at construction, the byte length is exactly twice
the sample length, and the only operation, `ProcessChunk`, never modifies
either field of any instance. -/
theorem chunk_size_invariant (io : Bool) (c : Int) (g : ℚ) (n : Int)
    (p : AudioProcessor) (tr : List ExtCall)
    (hp : AudioProcessor.construct io c g n = (Except.ok p, tr)) :
    (0 < p.m_chunk_size_samples ∧ p.m_chunk_size_samples = c ∧
      p.m_chunk_size_bytes = 2 * p.m_chunk_size_samples)
    ∧ ∀ (q p2 : AudioProcessor) (input : BufferInfo)
        (out : ProcessedAudioChunk) (trc : List ExtCall),
        q.ProcessChunk input = (Except.ok (p2, out), trc) →
          p2.m_chunk_size_samples = q.m_chunk_size_samples ∧
          p2.m_chunk_size_bytes = q.m_chunk_size_bytes := by
  obtain ⟨hc, hpe, -⟩ := construct_ok_facts io c g n p tr hp
  subst hpe
  refine ⟨⟨show (0 : Int) < c from hc, rfl, show c * 2 = 2 * c by ring⟩, ?_⟩
  intro q p2 input out trc h
  unfold AudioProcessor.ProcessChunk at h
  split at h
  · exact absurd h (by simp)
  · split at h
    · exact absurd h (by simp)
    · simp only [Prod.mk.injEq, Except.ok.injEq] at h
      obtain ⟨⟨hq, -⟩, -⟩ := h
      subst hq
      exact ⟨rfl, rfl⟩

/-- Witness for C5: the invariant holds for the instance constructed with 2
samples, and the preservation half holds of every call. -/
theorem chunk_size_invariant_witness :
    ∃ p tr, AudioProcessor.construct true 2 0 0 = (Except.ok p, tr) ∧
      ((0 < p.m_chunk_size_samples ∧ p.m_chunk_size_samples = 2 ∧
          p.m_chunk_size_bytes = 2 * p.m_chunk_size_samples)
        ∧ ∀ (q p2 : AudioProcessor) (input : BufferInfo)
            (out : ProcessedAudioChunk) (trc : List ExtCall),
            q.ProcessChunk input = (Except.ok (p2, out), trc) →
              p2.m_chunk_size_samples = q.m_chunk_size_samples ∧
              p2.m_chunk_size_bytes = q.m_chunk_size_bytes) := by
  refine ⟨_, _, rfl, chunk_size_invariant true 2 0 0 _ _ rfl⟩

end SpeexNoise

namespace SpeexNoise

/-! ## Claims about `ProcessChunk` validation and output shape -/

/-- C1: For every input byte sequence whose length is not exactly
`chunk_size_samples * 2`, `ProcessChunk` fails with a `ShapeMismatch`
condition, and for every input of exactly that length it does not raise
`ShapeMismatch`. -/
theorem processChunk_shape_mismatch_iff (io : Bool) (c : Int) (g : ℚ) (n : Int)
    (p : AudioProcessor) (tr : List ExtCall)
    (hp : AudioProcessor.construct io c g n = (Except.ok p, tr))
    (bs : List Nat) :
    (∃ e, (p.ProcessChunkBytes bs).1 = Except.error e ∧ isShapeMismatch e = true)
      ↔ (bs.length : Int) ≠ c * 2 := by
  obtain ⟨-, hpe, -⟩ := construct_ok_facts io c g n p tr hp
  subst hpe
  unfold AudioProcessor.ProcessChunkBytes AudioProcessor.ProcessChunk
  by_cases hlen : (bs.length : Int) = c * 2
  · simp [hlen, isShapeMismatch]
  · simp [hlen, isShapeMismatch]

/-- Witness for C1: a 2-sample (4-byte) processor rejects a 1-byte and a
5-byte input with `ShapeMismatch` and accepts a 4-byte input. -/
theorem processChunk_shape_mismatch_iff_witness :
    ∃ p tr, AudioProcessor.construct true 2 0 0 = (Except.ok p, tr) ∧
      (((∃ e, (p.ProcessChunkBytes [7]).1 = Except.error e
            ∧ isShapeMismatch e = true)
          ↔ (([7] : List Nat).length : Int) ≠ 2 * 2)
      ∧ ((∃ e, (p.ProcessChunkBytes [7, 7, 7, 7, 7]).1 = Except.error e
            ∧ isShapeMismatch e = true)
          ↔ (([7, 7, 7, 7, 7] : List Nat).length : Int) ≠ 2 * 2)
      ∧ ((∃ e, (p.ProcessChunkBytes [7, 7, 7, 7]).1 = Except.error e
            ∧ isShapeMismatch e = true)
          ↔ (([7, 7, 7, 7] : List Nat).length : Int) ≠ 2 * 2)) :=
  ⟨_, _, rfl,
   processChunk_shape_mismatch_iff true 2 0 0 _ _ rfl [7],
   processChunk_shape_mismatch_iff true 2 0 0 _ _ rfl [7, 7, 7, 7, 7],
   processChunk_shape_mismatch_iff true 2 0 0 _ _ rfl [7, 7, 7, 7]⟩

/-- On a correctly sized one-dimensional input, `ProcessChunk` reaches the
external call: it copies the bytes into a sample buffer, runs the external
routine on the copy, and returns the result bytes; the only external call is
the one `run`. -/
theorem ProcessChunk_ok_shape (p : AudioProcessor) (bs : List Nat)
    (hlen : (bs.length : Int) = p.m_chunk_size_bytes) :
    p.ProcessChunkBytes bs =
      (Except.ok
        ({ p with state := (speex_preprocess_run p.state (bytesToSamples bs)).1 },
         { audio := samplesToBytes ((speex_preprocess_run p.state (bytesToSamples bs)).2) }),
       [ExtCall.run (bytesToSamples bs)]) := by
  unfold AudioProcessor.ProcessChunkBytes AudioProcessor.ProcessChunk
  rw [if_neg (by simp), if_neg (by simp [hlen])]

/-- Every pair of consecutive bytes becomes one sample. -/
theorem bytesToSamples_length : ∀ bs : List Nat,
    (bytesToSamples bs).length = bs.length / 2
  | [] => by simp [bytesToSamples]
  | [_] => by simp [bytesToSamples]
  | _ :: _ :: rest => by
      simp only [bytesToSamples, List.length_cons]
      rw [bytesToSamples_length rest]
      omega

/-- Every sample becomes two bytes. -/
theorem samplesToBytes_length : ∀ ss : List Int,
    (samplesToBytes ss).length = 2 * ss.length
  | [] => rfl
  | _ :: rest => by
      simp only [samplesToBytes, fromSigned16, List.length_append,
        List.length_cons, List.length_nil]
      rw [samplesToBytes_length rest]
      omega

/-- The external routine mutates the sample buffer in place, so its length is
preserved. -/
theorem speex_preprocess_run_length (st : SpeexPreprocessState) (buf : List Int) :
    (speex_preprocess_run st buf).2.length = buf.length := by
  unfold speex_preprocess_run
  split
  · rfl
  · simp

/-- C2: For every correctly sized input, `ProcessChunk` returns a result
value whose only field is a byte sequence of exactly `chunk_size_samples * 2`
bytes, the same length as the input.  (`ProcessedAudioChunk` has `audio` as
its only field.) -/
theorem processChunk_output_length (io : Bool) (c : Int) (g : ℚ) (n : Int)
    (p : AudioProcessor) (tr : List ExtCall)
    (hp : AudioProcessor.construct io c g n = (Except.ok p, tr))
    (bs : List Nat) (hlen : (bs.length : Int) = c * 2) :
    ∃ p2 out trc, p.ProcessChunkBytes bs = (Except.ok (p2, out), trc) ∧
      (out.audio.length : Int) = c * 2 ∧ out.audio.length = bs.length := by
  obtain ⟨hc, hpe, -⟩ := construct_ok_facts io c g n p tr hp
  subst hpe
  have h := ProcessChunk_ok_shape
    ⟨configuredState (initial_state c 16000) g n, c, c * 2⟩ bs hlen
  refine ⟨_, _, _, h, ?_, ?_⟩
  · simp only [samplesToBytes_length, speex_preprocess_run_length,
      bytesToSamples_length]
    omega
  · simp only [samplesToBytes_length, speex_preprocess_run_length,
      bytesToSamples_length]
    omega

/-- Witness for C2: a 4-byte input to a 2-sample processor yields a 4-byte
output. -/
theorem processChunk_output_length_witness :
    ∃ p tr, AudioProcessor.construct true 2 0 0 = (Except.ok p, tr) ∧
      ∃ p2 out trc, p.ProcessChunkBytes [1, 2, 3, 4] = (Except.ok (p2, out), trc) ∧
        (out.audio.length : Int) = 2 * 2 ∧
        out.audio.length = ([1, 2, 3, 4] : List Nat).length :=
  ⟨_, _, rfl,
   processChunk_output_length true 2 0 0 _ _ rfl [1, 2, 3, 4] (by decide)⟩

end SpeexNoise

namespace SpeexNoise

/-! ## Claim about feature configuration at construction -/

/-- C6: At construction, denoising is enabled on the external state iff
`noise_suppression != 0`, with the suppression-strength parameter forwarded
(as a ctl call and as a stored value) exactly when enabled; and AGC is
enabled iff `auto_gain > 0`, with the gain-level parameter forwarded exactly
when enabled. -/
theorem construct_feature_config (io : Bool) (c : Int) (g : ℚ) (n : Int)
    (p : AudioProcessor) (tr : List ExtCall)
    (hp : AudioProcessor.construct io c g n = (Except.ok p, tr)) :
    (p.state.denoise = true ↔ n ≠ 0)
    ∧ (p.state.noise_suppress = if n = 0 then none else some n)
    ∧ (p.state.agc = true ↔ 0 < g)
    ∧ (p.state.agc_level = if 0 < g then some g else none)
    ∧ (∀ v, ExtCall.ctl (CtlRequest.SET_NOISE_SUPPRESS v) ∈ tr ↔ n ≠ 0 ∧ v = n)
    ∧ (∀ v, ExtCall.ctl (CtlRequest.SET_AGC_LEVEL v) ∈ tr ↔ 0 < g ∧ v = g) := by
  obtain ⟨-, hpe, htr⟩ := construct_ok_facts io c g n p tr hp
  subst hpe
  subst htr
  by_cases hn : n = 0 <;> by_cases hg : 0 < g <;>
    simp [configuredState, configTrace, speex_preprocess_ctl, initial_state,
      hn, hg, eq_comm]

/-- Witness for C6: with `noise_suppression = -3` and `auto_gain = 1/2`, both
features are enabled and both parameters are forwarded. -/
theorem construct_feature_config_witness :
    ∃ p tr, AudioProcessor.construct true 2 (1/2) (-3) = (Except.ok p, tr) ∧
      ((p.state.denoise = true ↔ (-3 : Int) ≠ 0)
      ∧ (p.state.noise_suppress = if (-3 : Int) = 0 then none else some (-3))
      ∧ (p.state.agc = true ↔ (0 : ℚ) < 1/2)
      ∧ (p.state.agc_level = if (0 : ℚ) < 1/2 then some (1/2) else none)
      ∧ (∀ v, ExtCall.ctl (CtlRequest.SET_NOISE_SUPPRESS v) ∈ tr
            ↔ (-3 : Int) ≠ 0 ∧ v = -3)
      ∧ (∀ v, ExtCall.ctl (CtlRequest.SET_AGC_LEVEL v) ∈ tr
            ↔ (0 : ℚ) < 1/2 ∧ v = 1/2)) :=
  ⟨_, _, rfl, construct_feature_config true 2 (1/2) (-3) _ _ rfl⟩

/-! ## Byte/sample roundtrip and the pass-through claim -/

/-- Packing a byte pair into a 16-bit sample and unpacking it restores the
pair. -/
theorem fromSigned16_toSigned16 (lo hi : Nat) (hlo : lo < 256) (hhi : hi < 256) :
    fromSigned16 (toSigned16 (lo + 256 * hi)) = [lo, hi] := by
  unfold toSigned16 fromSigned16
  by_cases h : lo + 256 * hi < 32768
  · rw [if_pos h]
    simp only [List.cons.injEq, and_true]
    exact ⟨by omega, by omega⟩
  · rw [if_neg h]
    simp only [List.cons.injEq, and_true]
    exact ⟨by omega, by omega⟩

/-- Copy-in then copy-out of an even-length byte buffer is the identity. -/
theorem samplesToBytes_bytesToSamples : ∀ bs : List Nat, bs.length % 2 = 0 →
    (∀ b ∈ bs, b < 256) → samplesToBytes (bytesToSamples bs) = bs
  | [], _, _ => rfl
  | [_], h, _ => by simp at h
  | lo :: hi :: rest, h, hb => by
      have hlo : lo < 256 := hb lo (by simp)
      have hhi : hi < 256 := hb hi (by simp)
      have ih := samplesToBytes_bytesToSamples rest
        (by simp only [List.length_cons] at h; omega)
        (fun b m => hb b (List.mem_cons_of_mem _ (List.mem_cons_of_mem _ m)))
      simp only [bytesToSamples, samplesToBytes,
        fromSigned16_toSigned16 lo hi hlo hhi, ih, List.cons_append,
        List.nil_append]

/-- C8: For a processor constructed with `chunk_size_samples = 160`,
`auto_gain = 0`, `noise_suppression = 0` (both features disabled), every call
with a correctly sized input returns output bit-identical to the input, and
the instance is unchanged, so the same holds of every subsequent call. -/
theorem processChunk_passthrough (p : AudioProcessor) (tr : List ExtCall)
    (hp : AudioProcessor.construct true 160 0 0 = (Except.ok p, tr))
    (bs : List Nat) (hlen : bs.length = 320) (hbytes : ∀ b ∈ bs, b < 256) :
    p.ProcessChunkBytes bs =
      (Except.ok (p, { audio := bs }), [ExtCall.run (bytesToSamples bs)]) := by
  obtain ⟨-, hpe, -⟩ := construct_ok_facts true 160 0 0 p tr hp
  subst hpe
  have h := ProcessChunk_ok_shape
    ⟨configuredState (initial_state 160 16000) 0 0, 160, 160 * 2⟩ bs
    (by rw [hlen]; decide)
  rw [h]
  have hrun : speex_preprocess_run (configuredState (initial_state 160 16000) 0 0)
      (bytesToSamples bs) = (configuredState (initial_state 160 16000) 0 0,
        bytesToSamples bs) := by
    unfold speex_preprocess_run
    rw [if_pos (by decide)]
  rw [hrun]
  rw [samplesToBytes_bytesToSamples bs (by omega) hbytes]

/-- Witness for C8: 320 zero bytes pass through the disabled-features
processor unchanged. -/
theorem processChunk_passthrough_witness :
    ∃ p tr, AudioProcessor.construct true 160 0 0 = (Except.ok p, tr) ∧
      p.ProcessChunkBytes (List.replicate 320 0) =
        (Except.ok (p, { audio := List.replicate 320 0 }),
         [ExtCall.run (bytesToSamples (List.replicate 320 0))]) :=
  ⟨_, _, rfl,
   processChunk_passthrough _ _ rfl (List.replicate 320 0)
     (List.length_replicate 320 0)
     (fun b hb => by have := List.eq_of_mem_replicate hb; omega)⟩

/-! ## Determinism across instances -/

/-- C9: Two instances constructed with identical parameters and fed the same
sequence of input chunks produce identical sequences of results. -/
theorem two_instances_deterministic (io : Bool) (c : Int) (g : ℚ) (n : Int)
    (p1 p2 : AudioProcessor) (tr1 tr2 : List ExtCall)
    (h1 : AudioProcessor.construct io c g n = (Except.ok p1, tr1))
    (h2 : AudioProcessor.construct io c g n = (Except.ok p2, tr2))
    (ins : List BufferInfo) :
    processAll p1 ins = processAll p2 ins := by
  rw [h1] at h2
  simp only [Prod.mk.injEq, Except.ok.injEq] at h2
  rw [h2.1]

/-- Witness for C9: two identically constructed 2-sample processors agree on
a two-chunk input sequence. -/
theorem two_instances_deterministic_witness :
    ∃ p tr, AudioProcessor.construct true 2 (1/2) 4 = (Except.ok p, tr) ∧
      processAll p [⟨1, [0, 0, 0, 0]⟩, ⟨1, [1, 2, 3]⟩]
        = processAll p [⟨1, [0, 0, 0, 0]⟩, ⟨1, [1, 2, 3]⟩] :=
  ⟨_, _, rfl, two_instances_deterministic true 2 (1/2) 4 _ _ _ _ rfl rfl
    [⟨1, [0, 0, 0, 0]⟩, ⟨1, [1, 2, 3]⟩]⟩

/-! ## The undocumented dimensionality guard -/

/-- C10: For any input whose buffer view is not one-dimensional,
`ProcessChunk` fails with the runtime error "Input audio must be a 1D bytes
array." before the length check, the copy, and the external call: the result
does not depend on the data (in particular not on its length), no external
call is made, and the error is none of the spec's three kinds. -/
theorem processChunk_ndim_guard (p : AudioProcessor) (input : BufferInfo)
    (h : input.ndim ≠ 1) :
    p.ProcessChunk input = (Except.error CppErr.not_one_dim, [])
    ∧ CppErr.what CppErr.not_one_dim = "Input audio must be a 1D bytes array."
    ∧ isShapeMismatch CppErr.not_one_dim = false
    ∧ isInvalidArgument CppErr.not_one_dim = false
    ∧ CppErr.not_one_dim ≠ CppErr.init_failure := by
  refine ⟨?_, rfl, rfl, rfl, by decide⟩
  unfold AudioProcessor.ProcessChunk
  rw [if_pos h]

/-- Witness for C10: a two-dimensional view whose total data length is even
correct (4 bytes for a 2-sample processor) is still rejected with the 1-D
error and no external call, showing the check precedes the length check. -/
theorem processChunk_ndim_guard_witness :
    ∃ p tr, AudioProcessor.construct true 2 0 0 = (Except.ok p, tr) ∧
      (p.ProcessChunk ⟨2, [0, 0, 0, 0]⟩ = (Except.error CppErr.not_one_dim, [])
      ∧ CppErr.what CppErr.not_one_dim = "Input audio must be a 1D bytes array."
      ∧ isShapeMismatch CppErr.not_one_dim = false
      ∧ isInvalidArgument CppErr.not_one_dim = false
      ∧ CppErr.not_one_dim ≠ CppErr.init_failure) :=
  ⟨_, _, rfl, processChunk_ndim_guard _ ⟨2, [0, 0, 0, 0]⟩ (by decide)⟩

end SpeexNoise
